import Mathlib

/-!
Shallow embedding of the searchable-dropdown ("combobox") component of
`sirilmp/custom-components` (source: `src/components/Select.jsx`, mounted by
`src/App.jsx`).

The component's transient UI state is `query`, `isOpen`, `focusedOptionIndex`
(React `useState` hooks).  The derived value `filteredOptions` is recomputed on
every render from the `options` prop and `query`.  Event handlers
(`handleInputChange`, `handleToggleDropdown`, `handleSelectOption`,
`handleKeyDown`, `handleEscapeKey`, `handleClickOutside`, `handleOptionClick`)
are embedded below as pure state transformers; the `onSelect` callback is
modelled by the list of strings a transition passes to it.

JavaScript `undefined` can flow into `handleSelectOption` (from
`filteredOptions[focusedOptionIndex]` when that index is out of range), after
which `setQuery(undefined)` makes the next render throw inside
`query.toLowerCase()`.  That path is modelled by `Except.error ()`.
-/

/-- ASCII whitespace as matched by the JavaScript regex `/\s+/g` on the ASCII
range (the full JS class also has `\f`, `\v` and Unicode spaces; only these
four occur in this repository's data and examples). -/
def jsIsSpace (c : Char) : Bool :=
  c = ' ' || c = '\t' || c = '\n' || c = '\r'

/-- JavaScript `String.prototype.toLowerCase` restricted to ASCII letters (the
only case-carrying characters in this repository's option lists). -/
def jsToLower (c : Char) : Char :=
  match c with
  | 'A' => 'a' | 'B' => 'b' | 'C' => 'c' | 'D' => 'd' | 'E' => 'e' | 'F' => 'f'
  | 'G' => 'g' | 'H' => 'h' | 'I' => 'i' | 'J' => 'j' | 'K' => 'k' | 'L' => 'l'
  | 'M' => 'm' | 'N' => 'n' | 'O' => 'o' | 'P' => 'p' | 'Q' => 'q' | 'R' => 'r'
  | 'S' => 's' | 'T' => 't' | 'U' => 'u' | 'V' => 'v' | 'W' => 'w' | 'X' => 'x'
  | 'Y' => 'y' | 'Z' => 'z' | _ => c

/-- `leadsWith n h` holds when the character list `n` starts the list `h`. -/
def leadsWith : List Char → List Char → Bool
  | [], _ => true
  | _ :: _, [] => false
  | n :: ns, h :: hs => n = h && leadsWith ns hs

/-- `hasSeg n h`: JavaScript `h.includes(n)` — `n` occurs contiguously in `h`. -/
def hasSeg : List Char → List Char → Bool
  | n, [] => n.isEmpty
  | n, h :: hs => leadsWith n (h :: hs) || hasSeg n hs

/-- The normalisation applied by `Select.jsx` before matching:
`option.toLowerCase().replace(/\s+/g, "")` — lowercase first, then remove
whitespace. -/
def normalizeCode (s : String) : List Char :=
  (s.toList.map jsToLower).filter (fun c => !jsIsSpace c)

/-- The `filteredOptions` derived value of `Select.jsx`:
`query === "" ? options : options.filter(o =>
  o.toLowerCase().replace(/\s+/g, "").includes(query.toLowerCase().replace(/\s+/g, "")))`. -/
def filteredOptions (options : List String) (query : String) : List String :=
  if query = "" then options
  else options.filter (fun option => hasSeg (normalizeCode query) (normalizeCode option))

/-- Normalisation in the order the spec's data-model section words it:
"whitespace-stripped, case-folded form" — strip whitespace first, then fold
case. -/
def normalizeSpec (s : String) : List Char :=
  (s.toList.filter (fun c => !jsIsSpace c)).map jsToLower

/-- `FilteredOptions` as the spec's data-model section words it, built on
`normalizeSpec`; compared against the source-derived `filteredOptions`. -/
def filteredOptionsSpec (options : List String) (query : String) : List String :=
  if query = "" then options
  else options.filter (fun option => hasSeg (normalizeSpec query) (normalizeSpec option))

theorem jsIsSpace_jsToLower (c : Char) : jsIsSpace (jsToLower c) = jsIsSpace c := by
  unfold jsToLower
  split
  all_goals rfl

theorem normalizeCode_eq_normalizeSpec (s : String) :
    normalizeCode s = normalizeSpec s := by
  unfold normalizeCode normalizeSpec
  have hp : ((fun c => !jsIsSpace c) ∘ jsToLower) = (fun c => !jsIsSpace c) := by
    funext x
    simp [Function.comp, jsIsSpace_jsToLower]
  rw [List.filter_map, hp]

theorem filteredOptions_eq_spec (L : List String) (q : String) :
    filteredOptions L q = filteredOptionsSpec L q := by
  unfold filteredOptions filteredOptionsSpec
  simp [normalizeCode_eq_normalizeSpec]

/-- C1: for every option list `L` and query `q`, the derived filtered list is
`L` itself when `q` is empty; it is always a sublist of `L` (relative order
preserved); it agrees with the spec-worded version (whitespace-stripped,
case-folded normalisation); and its members are exactly the members of `L`
whose lowercased, whitespace-removed form contains that of `q`. -/
theorem filteredOptions_correct (L : List String) (q : String) :
    filteredOptions L "" = L ∧
    List.Sublist (filteredOptions L q) L ∧
    filteredOptions L q = filteredOptionsSpec L q ∧
    ∀ x, x ∈ filteredOptions L q ↔
      x ∈ L ∧ (q = "" ∨ hasSeg (normalizeCode q) (normalizeCode x) = true) := by
  refine ⟨rfl, ?_, filteredOptions_eq_spec L q, ?_⟩
  · unfold filteredOptions
    split
    · exact List.Sublist.refl L
    · exact List.filter_sublist L
  · intro x
    unfold filteredOptions
    split
    · simp_all
    · simp_all [List.mem_filter]

/-- The three `useState` hooks of `Select.jsx`: `query`, `isOpen`,
`focusedOptionIndex` (initially `""`, `false`, `0`). -/
structure SelectState where
  query : String
  isOpen : Bool
  focusedOptionIndex : Nat
deriving DecidableEq

/-- The props of `Select.jsx` that influence the state machine: `options` and
`disabled` (`onSelect` is modelled by the emitted-call list, `placeholder` and
`notfound` are pure render inputs). -/
structure SelectConfig where
  options : List String
  disabled : Bool

/-- Initial hook values: `useState("")`, `useState(false)`, `useState(0)`. -/
def initialState : SelectState := ⟨"", false, 0⟩

/-- The `filteredOptions` value the handlers close over in a given state. -/
def filteredOptionsOf (cfg : SelectConfig) (s : SelectState) : List String :=
  filteredOptions cfg.options s.query

/-- Keyboard keys the window `keydown` listeners inspect; `other` stands for
every other key. -/
inductive SelectKey
  | arrowDown
  | arrowUp
  | enter
  | escape
  | other
deriving DecidableEq

/-- User events dispatched to the component.  `optionClick i` is a click on
the rendered option with `data-index` `i`; `clickOutside` is a window click
whose target is inside neither `inputRef` nor `dropdownRef`;
`inputFocus` is the input merely gaining focus (the source attaches no focus
handler, so it is a no-op). -/
inductive SelectEvent
  | inputFocus
  | inputClick
  | inputChange (value : String)
  | optionClick (index : Nat)
  | keyDown (key : SelectKey)
  | clickOutside

/-- `clearInput`: `setQuery("")`, `setIsOpen(false)`, `setFocusedOptionIndex(0)`. -/
def clearInput : SelectState := ⟨"", false, 0⟩

/-- `handleSelectOption(option)`: `setQuery(option)`, `setIsOpen(false)`,
`onSelect(option)`.  It does not touch `focusedOptionIndex`.  The second
component is the list of arguments passed to `onSelect`. -/
def handleSelectOption (s : SelectState) (option : String) :
    SelectState × List String :=
  ({ s with query := option, isOpen := false }, [option])

/-- `handleToggleDropdown`: `setIsOpen(!isOpen)`; when it was closed the input
is focused (no state change), when it was open `setFocusedOptionIndex(0)`. -/
def handleToggleDropdown (s : SelectState) : SelectState :=
  if s.isOpen then { s with isOpen := false, focusedOptionIndex := 0 }
  else { s with isOpen := true }

/-- `handleInputChange(event)`: `!isOpen && handleToggleDropdown()`, then
`setQuery(event.target.value)` and `setFocusedOptionIndex(0)`. -/
def handleInputChange (s : SelectState) (value : String) : SelectState :=
  let s1 := if s.isOpen then s else handleToggleDropdown s
  { s1 with query := value, focusedOptionIndex := 0 }

/-- `handleKeyDown(e)`: when open, ArrowDown moves down while
`focusedOptionIndex < filteredOptions.length - 1` (JavaScript arithmetic, hence
the `Int` comparison), ArrowUp moves up while `focusedOptionIndex > 0`, and
Enter calls `handleSelectOption(filteredOptions[focusedOptionIndex])` — the
guard `focusedOptionIndex !== null` in the source is always true because the
index is only ever set to numbers.  When that index is out of range,
JavaScript indexing yields `undefined`, modelled as `Except.error ()`. -/
def handleKeyDown (cfg : SelectConfig) (s : SelectState) (key : SelectKey) :
    Except Unit (SelectState × List String) :=
  if s.isOpen then
    if key = .arrowDown ∧
        (s.focusedOptionIndex : Int) < (filteredOptionsOf cfg s).length - 1 then
      .ok ({ s with focusedOptionIndex := s.focusedOptionIndex + 1 }, [])
    else if key = .arrowUp ∧ 0 < s.focusedOptionIndex then
      .ok ({ s with focusedOptionIndex := s.focusedOptionIndex - 1 }, [])
    else if key = .enter then
      match (filteredOptionsOf cfg s)[s.focusedOptionIndex]? with
      | some option => .ok (handleSelectOption s option)
      | none => .error ()
    else .ok (s, [])
  else .ok (s, [])

/-- One user event processed by every handler the source wires up for it.

* A disabled input fires no change/click events, so `inputChange` and
  `inputClick` are no-ops when `cfg.disabled`.
* A click on the input or an option also reaches the window-level
  `handleClickOutside`, but its target is inside `inputRef` resp.
  `dropdownRef`, so that listener does nothing for those events.
* `handleClickOutside` requires `dropdownRef.current` to be non-null, and the
  dropdown `div` is rendered exactly while `isOpen`; hence `clickOutside` acts
  only on open states.
* A keydown reaches `handleEscapeKey` (clears on Escape) and `handleKeyDown`
  (which ignores Escape, so the order of the two listeners is immaterial).
* `optionClick i` exists only for a rendered option, i.e. while open with
  `i < filteredOptions.length`; it runs `handleOptionClick(i)`:
  `setFocusedOptionIndex(i)` then `handleSelectOption(filteredOptions[i])`. -/
def stepE (cfg : SelectConfig) (s : SelectState) (e : SelectEvent) :
    Except Unit (SelectState × List String) :=
  match e with
  | .inputFocus => .ok (s, [])
  | .inputClick =>
    if cfg.disabled then .ok (s, []) else .ok (handleToggleDropdown s, [])
  | .inputChange value =>
    if cfg.disabled then .ok (s, []) else .ok (handleInputChange s value, [])
  | .optionClick index =>
    if s.isOpen then
      match (filteredOptionsOf cfg s)[index]? with
      | some option =>
        .ok (handleSelectOption { s with focusedOptionIndex := index } option)
      | none => .ok (s, [])
    else .ok (s, [])
  | .keyDown key =>
    if key = .escape then .ok (clearInput, []) else handleKeyDown cfg s key
  | .clickOutside =>
    if s.isOpen then .ok (clearInput, []) else .ok (s, [])

/-- Run a sequence of events from a state, dropping the emitted `onSelect`
arguments and stopping at the first `undefined` flow. -/
def runEvents (cfg : SelectConfig) : SelectState → List SelectEvent → Except Unit SelectState
  | s, [] => .ok s
  | s, e :: es =>
    match stepE cfg s e with
    | .ok (s2, _) => runEvents cfg s2 es
    | .error u => .error u

/-- What the dropdown area of `Select.jsx` displays. -/
inductive PanelView
  | closedPanel
  | notFoundText (t : String)
  | optionList (opts : List String) (focused : Nat)
deriving DecidableEq

/-- The render rule of `Select.jsx`: nothing while closed; while open, the
`notfound` text iff `filteredOptions?.length === 0 && query !== ""`, else the
filtered options with the entry at `focusedOptionIndex` highlighted. -/
def render (cfg : SelectConfig) (notfound : String) (s : SelectState) : PanelView :=
  if s.isOpen then
    if (filteredOptionsOf cfg s).length = 0 ∧ s.query ≠ "" then
      .notFoundText notfound
    else .optionList (filteredOptionsOf cfg s) s.focusedOptionIndex
  else .closedPanel

/-- The option list the demo page `App.jsx` passes to the component. -/
def appOptions : List String :=
  ["Alappuzha", "Ernakulam", "Kozhikode", "Palakkad", "Kollam", "Kannur",
   "Kasaragod", "Idukki", "Kottayam", "Thrissur", "Pathanamthitta",
   "Malappuram", "Wayanad", "Thiruvananthapuram"]

/-- The demo page's configuration (`disabled` defaults to `false`). -/
def appConfig : SelectConfig := ⟨appOptions, false⟩

/-- Configuration for the spec's ArrowDown scenario over `["A","B","C"]`. -/
def abcConfig : SelectConfig := ⟨["A", "B", "C"], false⟩

/-- Configuration for the spec's `notfound` scenario over `["Kerala"]`. -/
def keralaConfig : SelectConfig := ⟨["Kerala"], false⟩

theorem stepE_inputChange (cfg : SelectConfig) (s : SelectState) (v : String)
    (hd : cfg.disabled = false) :
    stepE cfg s (.inputChange v) = .ok (⟨v, true, 0⟩, []) := by
  cases s with
  | mk q o f => cases o <;> simp [stepE, handleInputChange, handleToggleDropdown, hd]

theorem stepE_inputClick_open (cfg : SelectConfig) (s : SelectState)
    (hd : cfg.disabled = false) (ho : s.isOpen = true) :
    stepE cfg s .inputClick =
      .ok ({ s with isOpen := false, focusedOptionIndex := 0 }, []) := by
  simp [stepE, handleToggleDropdown, hd, ho]

theorem stepE_inputClick_closed (cfg : SelectConfig) (s : SelectState)
    (hd : cfg.disabled = false) (hc : s.isOpen = false) :
    stepE cfg s .inputClick = .ok ({ s with isOpen := true }, []) := by
  simp [stepE, handleToggleDropdown, hd, hc]

theorem stepE_escape (cfg : SelectConfig) (s : SelectState) :
    stepE cfg s (.keyDown .escape) = .ok (clearInput, []) := by
  simp [stepE]

theorem stepE_clickOutside_open (cfg : SelectConfig) (s : SelectState)
    (ho : s.isOpen = true) :
    stepE cfg s .clickOutside = .ok (clearInput, []) := by
  simp [stepE, ho]

theorem stepE_optionClick (cfg : SelectConfig) (s : SelectState) (i : Nat)
    (o : String) (ho : s.isOpen = true)
    (hi : (filteredOptionsOf cfg s)[i]? = some o) :
    stepE cfg s (.optionClick i) =
      .ok ({ s with query := o, isOpen := false, focusedOptionIndex := i }, [o]) := by
  simp [stepE, ho, hi, handleSelectOption]

theorem stepE_enter (cfg : SelectConfig) (s : SelectState) (o : String)
    (ho : s.isOpen = true)
    (hi : (filteredOptionsOf cfg s)[s.focusedOptionIndex]? = some o) :
    stepE cfg s (.keyDown .enter) =
      .ok ({ s with query := o, isOpen := false }, [o]) := by
  simp [stepE, handleKeyDown, ho, hi, handleSelectOption]

theorem stepE_arrowDown_lt (cfg : SelectConfig) (s : SelectState)
    (ho : s.isOpen = true)
    (hlt : (s.focusedOptionIndex : Int) < (filteredOptionsOf cfg s).length - 1) :
    stepE cfg s (.keyDown .arrowDown) =
      .ok ({ s with focusedOptionIndex := s.focusedOptionIndex + 1 }, []) := by
  simp [stepE, handleKeyDown, ho, hlt]

theorem stepE_arrowDown_ge (cfg : SelectConfig) (s : SelectState)
    (ho : s.isOpen = true)
    (hge : ¬ (s.focusedOptionIndex : Int) < (filteredOptionsOf cfg s).length - 1) :
    stepE cfg s (.keyDown .arrowDown) = .ok (s, []) := by
  simp [stepE, handleKeyDown, ho, hge]

theorem stepE_arrowUp_pos (cfg : SelectConfig) (s : SelectState)
    (ho : s.isOpen = true) (hpos : 0 < s.focusedOptionIndex) :
    stepE cfg s (.keyDown .arrowUp) =
      .ok ({ s with focusedOptionIndex := s.focusedOptionIndex - 1 }, []) := by
  simp [stepE, handleKeyDown, ho, hpos]

theorem stepE_arrowUp_zero (cfg : SelectConfig) (s : SelectState)
    (ho : s.isOpen = true) (hz : s.focusedOptionIndex = 0) :
    stepE cfg s (.keyDown .arrowUp) = .ok (s, []) := by
  simp [stepE, handleKeyDown, ho, hz]

/-- C2: in every open state, confirming a selection — Enter on an in-range
`focusedOptionIndex`, or a click on the rendered option at index `i` — sets
`query` to exactly that option's literal text, closes the dropdown, and passes
exactly that text to `onSelect` exactly once. -/
theorem select_commits (cfg : SelectConfig) (s : SelectState)
    (h : s.isOpen = true) :
    (∀ o, (filteredOptionsOf cfg s)[s.focusedOptionIndex]? = some o →
      stepE cfg s (.keyDown .enter) =
        .ok ({ s with query := o, isOpen := false }, [o])) ∧
    (∀ i o, (filteredOptionsOf cfg s)[i]? = some o →
      stepE cfg s (.optionClick i) =
        .ok ({ s with query := o, isOpen := false, focusedOptionIndex := i }, [o])) :=
  ⟨fun o ho => stepE_enter cfg s o h ho,
   fun i o hio => stepE_optionClick cfg s i o h hio⟩

theorem select_commits_witness :
    stepE abcConfig ⟨"", true, 0⟩ (.keyDown .enter) = .ok (⟨"A", false, 0⟩, ["A"]) ∧
    stepE abcConfig ⟨"", true, 0⟩ (.optionClick 1) = .ok (⟨"B", false, 1⟩, ["B"]) := by
  have h := select_commits abcConfig ⟨"", true, 0⟩ rfl
  exact ⟨h.1 "A" rfl, h.2 1 "B" rfl⟩

/-- C3: the spec's invariant `0 <= FocusedIndex < max(1, len(FilteredOptions))`
for open states fails on a reachable state: with the demo option list, click
the input (open), click option 1 ("Ernakulam", which closes with
`focusedOptionIndex = 1` because `handleSelectOption` never resets it), then
click the input again.  The dropdown is open over the single-element filtered
list `["Ernakulam"]` while `focusedOptionIndex = 1`. -/
theorem focusedIndex_invariant_violated :
    runEvents appConfig initialState [.inputClick, .optionClick 1, .inputClick] =
      .ok ⟨"Ernakulam", true, 1⟩ ∧
    (⟨"Ernakulam", true, 1⟩ : SelectState).isOpen = true ∧
    (filteredOptionsOf appConfig ⟨"Ernakulam", true, 1⟩).length = 1 ∧
    ¬ ((⟨"Ernakulam", true, 1⟩ : SelectState).focusedOptionIndex <
        max 1 (filteredOptionsOf appConfig ⟨"Ernakulam", true, 1⟩).length) := by
  refine ⟨rfl, rfl, rfl, ?_⟩
  decide

/-- C4: from every open state, Escape and a click outside both the input and
the panel close the dropdown with `query = ""`, reset the focused index, and
pass nothing to `onSelect`. -/
theorem escape_outside_clear (cfg : SelectConfig) (s : SelectState)
    (h : s.isOpen = true) :
    stepE cfg s (.keyDown .escape) = .ok (clearInput, []) ∧
    stepE cfg s .clickOutside = .ok (clearInput, []) ∧
    clearInput.query = "" ∧ clearInput.isOpen = false :=
  ⟨stepE_escape cfg s, stepE_clickOutside_open cfg s h, rfl, rfl⟩

theorem escape_outside_clear_witness :
    stepE keralaConfig ⟨"xy", true, 0⟩ (.keyDown .escape) = .ok (clearInput, []) ∧
    stepE keralaConfig ⟨"xy", true, 0⟩ .clickOutside = .ok (clearInput, []) := by
  have h := escape_outside_clear keralaConfig ⟨"xy", true, 0⟩ rfl
  exact ⟨h.1, h.2.1⟩

/-- C5: in the spec's scenario (options `["Kerala"]`, typed query `"xyz"`) the
open panel renders the `notfound` text; but Enter is not a no-op there: the
filtered list is empty, `focusedOptionIndex !== null` still holds, and the
source calls `handleSelectOption(filteredOptions[0])`, i.e. flows JavaScript
`undefined` into `setQuery` and `onSelect` (modelled by `Except.error ()`). -/
theorem notfound_enter_selects_undefined :
    runEvents keralaConfig initialState [.inputClick, .inputChange "xyz"] =
      .ok ⟨"xyz", true, 0⟩ ∧
    render keralaConfig "notfound" ⟨"xyz", true, 0⟩ = .notFoundText "notfound" ∧
    filteredOptionsOf keralaConfig ⟨"xyz", true, 0⟩ = [] ∧
    stepE keralaConfig ⟨"xyz", true, 0⟩ (.keyDown .enter) = .error () :=
  ⟨rfl, rfl, rfl, rfl⟩

/-- C6 counterexample: a transition that closes the dropdown (clicking option
1 over `["A","B","C"]`) leaves `focusedOptionIndex = 1`, not `0`. -/
theorem focus_reset_counterexample :
    stepE abcConfig ⟨"", true, 0⟩ (.optionClick 1) = .ok (⟨"B", false, 1⟩, ["B"]) ∧
    (⟨"B", false, 1⟩ : SelectState).focusedOptionIndex ≠ 0 := by
  refine ⟨rfl, ?_⟩
  decide

/-- C6 amended: typing resets `focusedOptionIndex` to 0; closing via input
click, Escape, or outside click resets it to 0; but closing via a selection
leaves it at the selected option's index (an option click first sets it to the
clicked index, Enter leaves it unchanged), and opening via an input click
leaves it unchanged. -/
theorem focus_reset_amended (cfg : SelectConfig) (s : SelectState) (v : String)
    (i : Nat) (o : String) :
    (cfg.disabled = false →
      stepE cfg s (.inputChange v) = .ok (⟨v, true, 0⟩, [])) ∧
    (cfg.disabled = false → s.isOpen = true →
      stepE cfg s .inputClick =
        .ok ({ s with isOpen := false, focusedOptionIndex := 0 }, [])) ∧
    (cfg.disabled = false → s.isOpen = false →
      stepE cfg s .inputClick = .ok ({ s with isOpen := true }, [])) ∧
    (stepE cfg s (.keyDown .escape) = .ok (clearInput, []) ∧
      clearInput.focusedOptionIndex = 0) ∧
    (s.isOpen = true → stepE cfg s .clickOutside = .ok (clearInput, [])) ∧
    (s.isOpen = true → (filteredOptionsOf cfg s)[i]? = some o →
      stepE cfg s (.optionClick i) =
        .ok ({ s with query := o, isOpen := false, focusedOptionIndex := i }, [o])) ∧
    (s.isOpen = true → (filteredOptionsOf cfg s)[s.focusedOptionIndex]? = some o →
      stepE cfg s (.keyDown .enter) =
        .ok ({ s with query := o, isOpen := false }, [o])) :=
  ⟨fun hd => stepE_inputChange cfg s v hd,
   fun hd ho => stepE_inputClick_open cfg s hd ho,
   fun hd hc => stepE_inputClick_closed cfg s hd hc,
   ⟨stepE_escape cfg s, rfl⟩,
   fun ho => stepE_clickOutside_open cfg s ho,
   fun ho hio => stepE_optionClick cfg s i o ho hio,
   fun ho hio => stepE_enter cfg s o ho hio⟩

theorem focus_reset_amended_witness :
    stepE abcConfig ⟨"", true, 0⟩ (.inputChange "x") = .ok (⟨"x", true, 0⟩, []) ∧
    stepE abcConfig ⟨"", true, 0⟩ .inputClick = .ok (⟨"", false, 0⟩, []) ∧
    stepE abcConfig ⟨"", false, 0⟩ .inputClick = .ok (⟨"", true, 0⟩, []) ∧
    stepE abcConfig ⟨"", true, 0⟩ (.keyDown .escape) = .ok (clearInput, []) ∧
    stepE abcConfig ⟨"", true, 0⟩ .clickOutside = .ok (clearInput, []) ∧
    stepE abcConfig ⟨"", true, 0⟩ (.optionClick 1) = .ok (⟨"B", false, 1⟩, ["B"]) ∧
    stepE abcConfig ⟨"", true, 0⟩ (.keyDown .enter) = .ok (⟨"A", false, 0⟩, ["A"]) := by
  have h1 := focus_reset_amended abcConfig ⟨"", true, 0⟩ "x" 1 "B"
  have h2 := focus_reset_amended abcConfig ⟨"", false, 0⟩ "x" 0 "A"
  have h3 := focus_reset_amended abcConfig ⟨"", true, 0⟩ "x" 0 "A"
  exact ⟨h1.1 rfl, h1.2.1 rfl rfl, h2.2.2.1 rfl rfl, h1.2.2.2.1.1,
    h1.2.2.2.2.1 rfl, h1.2.2.2.2.2.1 rfl rfl, h3.2.2.2.2.2.2 rfl rfl⟩

/-- C7: in every open state, ArrowDown increments the focused index exactly
when `focusedOptionIndex < filteredOptions.length - 1` (as integers) and is
otherwise a no-op; ArrowUp decrements exactly when `focusedOptionIndex > 0`
and is otherwise a no-op; over `["A","B","C"]` starting at index 0, two
ArrowDowns reach 2 and a third leaves it at 2. -/
theorem arrow_navigation (cfg : SelectConfig) (s : SelectState)
    (h : s.isOpen = true) :
    ((s.focusedOptionIndex : Int) < (filteredOptionsOf cfg s).length - 1 →
      stepE cfg s (.keyDown .arrowDown) =
        .ok ({ s with focusedOptionIndex := s.focusedOptionIndex + 1 }, [])) ∧
    (¬ (s.focusedOptionIndex : Int) < (filteredOptionsOf cfg s).length - 1 →
      stepE cfg s (.keyDown .arrowDown) = .ok (s, [])) ∧
    (0 < s.focusedOptionIndex →
      stepE cfg s (.keyDown .arrowUp) =
        .ok ({ s with focusedOptionIndex := s.focusedOptionIndex - 1 }, [])) ∧
    (s.focusedOptionIndex = 0 →
      stepE cfg s (.keyDown .arrowUp) = .ok (s, [])) ∧
    runEvents abcConfig ⟨"", true, 0⟩
      [.keyDown .arrowDown, .keyDown .arrowDown] = .ok ⟨"", true, 2⟩ ∧
    runEvents abcConfig ⟨"", true, 0⟩
      [.keyDown .arrowDown, .keyDown .arrowDown, .keyDown .arrowDown] =
        .ok ⟨"", true, 2⟩ :=
  ⟨fun hlt => stepE_arrowDown_lt cfg s h hlt,
   fun hge => stepE_arrowDown_ge cfg s h hge,
   fun hpos => stepE_arrowUp_pos cfg s h hpos,
   fun hz => stepE_arrowUp_zero cfg s h hz,
   rfl, rfl⟩

theorem arrow_navigation_witness :
    stepE abcConfig ⟨"", true, 0⟩ (.keyDown .arrowDown) = .ok (⟨"", true, 1⟩, []) ∧
    stepE abcConfig ⟨"", true, 2⟩ (.keyDown .arrowDown) = .ok (⟨"", true, 2⟩, []) ∧
    stepE abcConfig ⟨"", true, 2⟩ (.keyDown .arrowUp) = .ok (⟨"", true, 1⟩, []) ∧
    stepE abcConfig ⟨"", true, 0⟩ (.keyDown .arrowUp) = .ok (⟨"", true, 0⟩, []) := by
  have h0 := arrow_navigation abcConfig ⟨"", true, 0⟩ rfl
  have h2 := arrow_navigation abcConfig ⟨"", true, 2⟩ rfl
  exact ⟨h0.1 (by decide), h2.2.1 (by decide), h2.2.2.1 (by decide),
    h0.2.2.2.1 rfl⟩

/-- C8: from every open state of an enabled component, clicking the input
closes the dropdown and resets the focused index to 0 while leaving `query`
unchanged — unlike Escape, which clears `query`. -/
theorem toggle_close_keeps_query (cfg : SelectConfig) (s : SelectState)
    (h : s.isOpen = true) (hd : cfg.disabled = false) :
    stepE cfg s .inputClick =
      .ok ({ s with isOpen := false, focusedOptionIndex := 0 }, []) ∧
    ({ s with isOpen := false, focusedOptionIndex := 0 } : SelectState).query =
      s.query ∧
    stepE cfg s (.keyDown .escape) = .ok (clearInput, []) ∧
    clearInput.query = "" :=
  ⟨stepE_inputClick_open cfg s hd h, rfl, stepE_escape cfg s, rfl⟩

theorem toggle_close_keeps_query_witness :
    stepE appConfig ⟨"Kot", true, 1⟩ .inputClick = .ok (⟨"Kot", false, 0⟩, []) ∧
    stepE appConfig ⟨"Kot", true, 1⟩ (.keyDown .escape) = .ok (clearInput, []) := by
  have h := toggle_close_keeps_query appConfig ⟨"Kot", true, 1⟩ rfl rfl
  exact ⟨h.1, h.2.2.1⟩

/-- C9: when `disabled` is true, no event makes `isOpen` true from a closed
state, and nothing is passed to `onSelect`: disabled inputs fire no
change/click events, and the window-level key and click listeners never open
the dropdown. -/
theorem disabled_never_opens (cfg : SelectConfig) (s : SelectState)
    (e : SelectEvent) (hd : cfg.disabled = true) (hc : s.isOpen = false) :
    ∃ s2, stepE cfg s e = .ok (s2, []) ∧ s2.isOpen = false := by
  cases e with
  | inputFocus => exact ⟨s, rfl, hc⟩
  | inputClick => exact ⟨s, by simp [stepE, hd], hc⟩
  | inputChange v => exact ⟨s, by simp [stepE, hd], hc⟩
  | optionClick i => exact ⟨s, by simp [stepE, hc], hc⟩
  | clickOutside => exact ⟨s, by simp [stepE, hc], hc⟩
  | keyDown k =>
    by_cases hk : k = SelectKey.escape
    · subst hk
      exact ⟨clearInput, by simp [stepE], rfl⟩
    · exact ⟨s, by simp [stepE, hk, handleKeyDown, hc], hc⟩

theorem disabled_never_opens_witness :
    ∃ s2, stepE (⟨["A", "B", "C"], true⟩ : SelectConfig) initialState
      .inputClick = .ok (s2, []) ∧ s2.isOpen = false :=
  disabled_never_opens ⟨["A", "B", "C"], true⟩ initialState .inputClick rfl rfl

/-- C10: from every closed state of an enabled component, a keystroke that
changes the input text opens the dropdown, sets `query` to the new text, and
resets the focused index to 0 (`handleInputChange` calls
`handleToggleDropdown` when closed). -/
theorem typing_opens (cfg : SelectConfig) (s : SelectState) (v : String)
    (hd : cfg.disabled = false) (hc : s.isOpen = false) :
    stepE cfg s (.inputChange v) = .ok (⟨v, true, 0⟩, []) :=
  stepE_inputChange cfg s v hd

theorem typing_opens_witness :
    stepE appConfig initialState (.inputChange "kot") =
      .ok (⟨"kot", true, 0⟩, []) :=
  typing_opens appConfig initialState "kot" rfl rfl
